import Mathlib

/-
Shallow embedding of function_app.py, the single source file of the
ssl-expiry-checker Azure function.  External collaborators (environment
variables, the MySQL target source, ssl.get_server_certificate, the X.509
parser of the cryptography package, datetime.now, requests.post, the Jinja
template) are modelled as oracle fields of a `Sys` record; the Python
control flow of each function is translated statement by statement.
Exceptions become `Except PyErr`, and observable side effects (log calls,
the database query, TLS fetch attempts, certificate evaluations, email
construction, the webhook HTTP POST with its timeout) are collected in an
effect trace.
-/

namespace SSLExpiry

/-- Exception kinds a per-hostname TLS certificate fetch can raise.
`internalError` stands for cryptography.exceptions.InternalError, the only
class the except clause in get_certificates names; the other three are the
kinds ssl.get_server_certificate actually raises. -/
inductive FetchErr where
  | connectionRefused
  | timedOut
  | handshakeFailed
  | internalError
deriving DecidableEq

/-- Outcome of one call to ssl.get_server_certificate for one hostname:
either the PEM text of the presented leaf certificate, or a raised
exception. -/
inductive FetchOutcome where
  | ok (pem : String)
  | raise (e : FetchErr)
deriving DecidableEq

/-- Python exceptions that the program can raise or propagate. -/
inductive PyErr where
  | valueError (msg : String)
  | indexError
  | extensionNotFound
  | requestException
  | dbError (msg : String)
  | fetchError (e : FetchErr)
deriving DecidableEq

/-- Outcome of the single requests.post call in Email.send: an HTTP
response with a status code and body text, or a network-level
requests.exceptions.RequestException. -/
inductive HttpOutcome where
  | resp (status : Nat) (text : String)
  | netErr (msg : String)
deriving DecidableEq

/-- Observable side effects of a run, in order of occurrence. -/
inductive Effect where
  | logInfo (msg : String)
  | logError (msg : String)
  | dbQuery
  | tlsFetch (host : String) (port : Nat)
  | evalCert
  | emailConstructed
  | httpPost (timeoutSec : Nat)
deriving DecidableEq

/-- The parts of a parsed X.509 certificate that check_expiry reads:
the ordered values of the Subject Common Name attribute (the list
returned by subject.get_attributes_for_oid(NameOID.COMMON_NAME)),
the DNS entries of the Subject Alternative Name extension (`none` when
the extension is absent, in which case get_extension_for_oid raises),
and not_valid_after_utc as POSIX seconds (`none` standing for a value
that is not a datetime, the case line 108 of the source defends
against). -/
structure X509Cert where
  subjectCNs : List String
  sanDNS : Option (List String)
  notValidAfterUtc : Option Int
deriving DecidableEq

/-- The dictionary check_expiry returns: keys cn, domains, expires. -/
structure CertData where
  cn : String
  domains : List String
  expires : Option Int
deriving DecidableEq

/-- One element of the expiring list built in ssl_expiry_checker:
keys cert, delta, expires, domains. -/
structure Entry where
  cert : String
  delta : Int
  expires : Int
  domains : List String
deriving DecidableEq

/-- The Email object of the source: subject, body, to, sender (the
field named to in the source is toAddr here, to being reserved). -/
structure Email where
  subject : String
  body : String
  toAddr : String
  sender : String
deriving DecidableEq

/-- The external world of one run: os.getenv, the MySQL query result,
ssl.get_server_certificate per hostname, x509.load_pem_x509_certificate
(`none` for an unparseable PEM), datetime.now(timezone.utc) as POSIX
seconds, the outcome of requests.post, and the rendered Jinja template. -/
structure Sys where
  env : String → Option String
  db : Except PyErr (List (String × String))
  fetch : String → FetchOutcome
  parse : String → Option X509Cert
  now : Int
  http : HttpOutcome
  render : List Entry → String

/-- Python truthiness of an os.getenv result: None and the empty string
are falsy, every other string is truthy. -/
def truthy : Option String → Bool
  | none => false
  | some s => !s.isEmpty

/-- Embedding of get_urls: check the four DB_* settings, connect and run
the query (both folded into the `db` oracle), return column 1 of every
row. -/
def get_urls (sys : Sys) : Except PyErr (List String) × List Effect :=
  if truthy (sys.env "DB_HOST") = false then
    (.error (.valueError "DB_HOST not set"), [])
  else if truthy (sys.env "DB_USER") = false then
    (.error (.valueError "DB_USER not set"), [])
  else if truthy (sys.env "DB_PASS") = false then
    (.error (.valueError "DB_PASS not set"), [])
  else if truthy (sys.env "DB_NAME") = false then
    (.error (.valueError "DB_NAME not set"), [])
  else
    match sys.db with
    | .error e => (.error e, [Effect.dbQuery, Effect.logError "Error connecting to database"])
    | .ok rows => (.ok (rows.map Prod.snd), [Effect.dbQuery])

/-- Loop body of get_certificates over the remaining URLs, carrying the
certs list built so far.  The except clause names only
cryptography.exceptions.InternalError: exactly that kind is logged and
skipped, every other raised exception propagates. -/
def getCertsGo (sys : Sys) : List String → List String → Except PyErr (List String) × List Effect
  | [], certs => (.ok certs, [])
  | url :: rest, certs =>
    match sys.fetch url with
    | .ok cert =>
      let certs2 := if cert ∈ certs then certs else certs ++ [cert]
      let p := getCertsGo sys rest certs2
      (p.1, Effect.logInfo ("Getting certificate for " ++ url) :: Effect.tlsFetch url 443 :: p.2)
    | .raise e =>
      if e = FetchErr.internalError then
        let p := getCertsGo sys rest certs
        (p.1, Effect.logInfo ("Getting certificate for " ++ url) :: Effect.tlsFetch url 443 ::
              Effect.logError ("Error getting certificate for " ++ url) :: p.2)
      else
        (.error (.fetchError e),
         [Effect.logInfo ("Getting certificate for " ++ url), Effect.tlsFetch url 443])

/-- Embedding of get_certificates. -/
def get_certificates (sys : Sys) (urls : List String) : Except PyErr (List String) × List Effect :=
  getCertsGo sys urls []

/-- Embedding of check_expiry.  The parse oracle stands for
x509.load_pem_x509_certificate; reading not_valid_after_utc never raises;
indexing [0] into the Common Name attribute list raises IndexError when
the list is empty; get_extension_for_oid raises ExtensionNotFound when
the SAN extension is absent. -/
def check_expiry (parse : String → Option X509Cert) (pem : String) : Except PyErr CertData :=
  match parse pem with
  | none => .error (.valueError "Unable to load PEM file")
  | some cert =>
    match cert.subjectCNs with
    | [] => .error .indexError
    | cn :: _ =>
      match cert.sanDNS with
      | none => .error .extensionNotFound
      | some domains => .ok { cn := cn, domains := domains, expires := cert.notValidAfterUtc }

/-- Embedding of the int() conversion applied to the threshold string:
an optional minus sign followed by decimal digits (the exotic forms int()
also accepts, such as surrounding whitespace, a plus sign or underscore
separators, are not modelled).  Structural recursion keeps it reducible. -/
def digitsVal (cs : List Char) (acc : Nat) : Option Nat :=
  match cs with
  | [] => some acc
  | c :: rest => if c.isDigit then digitsVal rest (acc * 10 + (c.toNat - 48)) else none

/-- Integer parse of a decimal string, used to embed int(). -/
def pyInt? (s : String) : Option Int :=
  match s.data with
  | [] => none
  | c :: rest =>
    if c = '-' then
      match rest with
      | [] => none
      | _ => (digitsVal rest 0).map (fun n => -(n : Int))
    else
      (digitsVal (c :: rest) 0).map (fun n => (n : Int))

/-- The for-loop of ssl_expiry_checker (source lines 102 to 125) over the
remaining certificates, carrying the expiring list built so far.  Each
iteration re-checks EXPIRY_THRESHOLD, evaluates the certificate, checks
that expires is a datetime, computes the day delta with Python floor
division, substitutes 90 when the days component is falsy (zero), parses
the threshold with int(), and appends an entry when days is below it. -/
def checkLoop (sys : Sys) : List String → List Entry → Except PyErr (List Entry) × List Effect
  | [], expiring => (.ok expiring, [])
  | cpem :: rest, expiring =>
    if truthy (sys.env "EXPIRY_THRESHOLD") = false then
      (.error (.valueError "EXPIRY_THRESHOLD not set"), [])
    else
      match check_expiry sys.parse cpem with
      | .error e => (.error e, [Effect.evalCert])
      | .ok data =>
        match data.expires with
        | none =>
          (.error (.valueError ("Certificate " ++ (if data.cn = "" then "Unknown" else data.cn) ++
            " has no expiration date")), [Effect.evalCert])
        | some exp =>
          let deltaDays := Int.fdiv (exp - sys.now) 86400
          let days := if deltaDays = 0 then (90 : Int) else deltaDays
          match pyInt? ((sys.env "EXPIRY_THRESHOLD").getD "") with
          | none => (.error (.valueError "invalid literal for int"), [Effect.evalCert])
          | some threshold =>
            if days < threshold then
              let p := checkLoop sys rest
                (expiring ++ [{ cert := data.cn, delta := days, expires := exp, domains := data.domains }])
              (p.1, Effect.evalCert ::
                    Effect.logInfo ("Certificate " ++ data.cn ++ " expires " ++ toString days ++ " in days") ::
                    p.2)
            else
              let p := checkLoop sys rest expiring
              (p.1, Effect.evalCert :: p.2)

/-- Embedding of construct_email: check the three EMAIL_* settings, render
the template, build the Email object. -/
def construct_email (sys : Sys) (expiring : List Entry) : Except PyErr Email × List Effect :=
  if truthy (sys.env "EMAIL_SUBJECT") = false then
    (.error (.valueError "EMAIL_SUBJECT not set"), [])
  else if truthy (sys.env "EMAIL_TO") = false then
    (.error (.valueError "EMAIL_TO not set"), [])
  else if truthy (sys.env "EMAIL_SENDER") = false then
    (.error (.valueError "EMAIL_SENDER not set"), [])
  else
    (.ok { subject := (sys.env "EMAIL_SUBJECT").getD ""
         , body := sys.render expiring
         , toAddr := (sys.env "EMAIL_TO").getD ""
         , sender := (sys.env "EMAIL_SENDER").getD "" },
     [Effect.emailConstructed])

/-- Embedding of Email.send: check the webhook settings, perform the one
requests.post with timeout 30; a network-level RequestException is logged
and re-raised; a response with status other than 201 is logged with
status and body and raises RequestException; status 201 succeeds. -/
def Email.send (sys : Sys) (email : Email) : Except PyErr Unit × List Effect :=
  if truthy (sys.env "WEBHOOK_URL") = false then
    (.error (.valueError "WEBHOOK_URL not set"), [])
  else if (truthy (sys.env "WEBHOOK_USER") = false) ∨ (truthy (sys.env "WEBHOOK_PASS") = false) then
    (.error (.valueError "WEBHOOK_USER or WEBHOOK_PASS not set"), [])
  else
    match sys.http with
    | .netErr msg =>
      (.error .requestException, [Effect.httpPost 30, Effect.logError ("Error: " ++ msg)])
    | .resp status text =>
      if status ≠ 201 then
        (.error .requestException,
         [Effect.httpPost 30, Effect.logError ("Error " ++ toString status ++ ": " ++ text)])
      else
        (.ok (), [Effect.httpPost 30])

/-- Embedding of ssl_expiry_checker, the timer entry point: check
EXPIRY_THRESHOLD, load targets, fetch certificates, run the evaluation
loop, and when the expiring list is non-empty construct and send the
email (a send failure is logged and re-raised). -/
def ssl_expiry_checker (sys : Sys) : Except PyErr Unit × List Effect :=
  if truthy (sys.env "EXPIRY_THRESHOLD") = false then
    (.error (.valueError "EXPIRY_THRESHOLD not set"), [])
  else
    match get_urls sys with
    | (.error e, fx1) => (.error e, fx1)
    | (.ok urls, fx1) =>
      match get_certificates sys urls with
      | (.error e, fx2) => (.error e, fx1 ++ fx2)
      | (.ok certs, fx2) =>
        match checkLoop sys certs [] with
        | (.error e, fx3) => (.error e, fx1 ++ fx2 ++ fx3)
        | (.ok expiring, fx3) =>
          if expiring.isEmpty then
            (.ok (), fx1 ++ fx2 ++ fx3 ++ [Effect.logInfo "No expiring certificates"])
          else
            match construct_email sys expiring with
            | (.error e, fx4) => (.error e, fx1 ++ fx2 ++ fx3 ++ fx4)
            | (.ok email, fx4) =>
              match Email.send sys email with
              | (.error e, fx5) =>
                (.error e, fx1 ++ fx2 ++ fx3 ++ fx4 ++ fx5 ++ [Effect.logError "Error sending email"])
              | (.ok _, fx5) =>
                (.ok (), fx1 ++ fx2 ++ fx3 ++ fx4 ++ fx5 ++
                  [Effect.logInfo ("Email sent to " ++ email.toAddr)])

/-- Truth of an Except result, for stating that a run did not succeed. -/
def exceptIsOk {α : Type} : Except PyErr α → Bool
  | .ok _ => true
  | .error _ => false

/-- Recognizes the webhook POST effect, to count delivery attempts. -/
def isHttpPost : Effect → Bool
  | .httpPost _ => true
  | _ => false

/-- Effects that can occur before notification construction: everything
except building the email and posting to the webhook. -/
def pipelineOnly : Effect → Bool
  | .emailConstructed => false
  | .httpPost _ => false
  | _ => true

/-- The append-if-absent step of the dedup in get_certificates. -/
def insertIfNew (certs : List String) (cert : String) : List String :=
  if cert ∈ certs then certs else certs ++ [cert]

/-- Modelled from the spec wording for the refinement claim about
deduplication: the PEM texts of the fetches that succeed, in input
order. -/
def specSuccessPems (sys : Sys) : List String → List String
  | [] => []
  | url :: rest =>
    match sys.fetch url with
    | .ok pem => pem :: specSuccessPems sys rest
    | .raise _ => specSuccessPems sys rest

/-- Modelled from the spec wording for the refinement claim about
deduplication: linear dedup keeping the first occurrence of each
byte-identical certificate, preserving first-seen order. -/
def specFirstSeenDedup (pems : List String) : List String :=
  pems.foldl insertIfNew []

/-- A PEM whose parsed certificate has a Common Name, a SAN extension and
a not-after datetime, so that check_expiry succeeds on it. -/
def goodPem (sys : Sys) (cpem : String) : Bool :=
  match sys.parse cpem with
  | none => false
  | some cert => !cert.subjectCNs.isEmpty && cert.sanDNS.isSome && cert.notValidAfterUtc.isSome

/-- The expiring-list entry the loop body of ssl_expiry_checker builds for
one certificate: first Common Name value, day delta with the 90 sentinel
on a zero days component, the not-after timestamp, and the SAN domains. -/
def entryFor (sys : Sys) (cpem : String) : Entry :=
  match sys.parse cpem with
  | none => { cert := "", delta := 0, expires := 0, domains := [] }
  | some cert =>
    let exp := cert.notValidAfterUtc.getD 0
    let deltaDays := Int.fdiv (exp - sys.now) 86400
    { cert := cert.subjectCNs.headD ""
    , delta := if deltaDays = 0 then (90 : Int) else deltaDays
    , expires := exp
    , domains := cert.sanDNS.getD [] }

/-- The threshold filter of the loop: keep the entry exactly when its day
delta is below the threshold. -/
def includeIfExpiring (sys : Sys) (threshold : Int) (cpem : String) : Option Entry :=
  if (entryFor sys cpem).delta < threshold then some (entryFor sys cpem) else none

/-- A full environment: every setting the program reads is present. -/
def envFull : String → Option String := fun k =>
  if k = "EXPIRY_THRESHOLD" then some "30"
  else if k = "DB_HOST" then some "dh"
  else if k = "DB_USER" then some "du"
  else if k = "DB_PASS" then some "dp"
  else if k = "DB_NAME" then some "dn"
  else if k = "EMAIL_SUBJECT" then some "subj"
  else if k = "EMAIL_TO" then some "ops"
  else if k = "EMAIL_SENDER" then some "noreply"
  else if k = "WEBHOOK_URL" then some "wh"
  else if k = "WEBHOOK_USER" then some "wu"
  else if k = "WEBHOOK_PASS" then some "wp"
  else none

/-- envFull with one setting removed. -/
def envDrop (k0 : String) : String → Option String := fun k =>
  if k = k0 then none else envFull k

/-- A certificate that is complete and expires ten days after time 0. -/
def certGood : X509Cert :=
  { subjectCNs := ["example.com"], sanDNS := some ["example.com"], notValidAfterUtc := some 864000 }

/-- A complete certificate expiring a hundred days after time 0. -/
def certFar : X509Cert :=
  { subjectCNs := ["example.com"], sanDNS := some ["example.com"], notValidAfterUtc := some 8640000 }

/-- A complete certificate expiring one hour after time 0, so its day
delta is zero. -/
def certToday : X509Cert :=
  { subjectCNs := ["example.com"], sanDNS := some ["example.com"], notValidAfterUtc := some 3600 }

/-- A complete certificate that expired ten days before time 0. -/
def certExpired : X509Cert :=
  { subjectCNs := ["example.com"], sanDNS := some ["example.com"], notValidAfterUtc := some (-864000) }

/-- A certificate whose Subject has no Common Name attribute. -/
def certNoCN : X509Cert :=
  { subjectCNs := [], sanDNS := some ["example.com"], notValidAfterUtc := some 864000 }

/-- A certificate without a Subject Alternative Name extension. -/
def certNoSAN : X509Cert :=
  { subjectCNs := ["example.com"], sanDNS := none, notValidAfterUtc := some 864000 }

/-- A fully configured world: one database row, every fetch returns the
same PEM, every PEM parses to certGood, the clock reads 0, the webhook
answers 201. -/
def baseSys : Sys :=
  { env := envFull
  , db := .ok [("c1", "example.com")]
  , fetch := fun _ => .ok "PEM1"
  , parse := fun _ => some certGood
  , now := 0
  , http := .resp 201 "created"
  , render := fun _ => "body" }

/-- World in which fetching hostname b raises ConnectionRefusedError and
every other fetch succeeds. -/
def sysRefused : Sys :=
  { baseSys with fetch := fun u => if u = "b" then .raise .connectionRefused else .ok ("PEM-" ++ u) }

/-- World in which every fetch yields the same PEM text. -/
def sysSamePem : Sys :=
  { baseSys with fetch := fun _ => .ok "PEMX" }

/-- World whose certificates are far from expiry, so nothing is below the
threshold. -/
def sysNoExpiring : Sys :=
  { baseSys with parse := fun _ => some certFar }

/-- World with a threshold of 200 days and a certificate whose day delta
is zero, exercising the 90-day sentinel. -/
def sysSentinel : Sys :=
  { baseSys with
      env := fun k => if k = "EXPIRY_THRESHOLD" then some "200" else envFull k
    , parse := fun _ => some certToday }

/-- World whose certificate is already expired. -/
def sysExpired : Sys :=
  { baseSys with parse := fun _ => some certExpired }

/-- World whose certificate lacks a Subject Alternative Name extension. -/
def sysNoSAN : Sys :=
  { baseSys with parse := fun _ => some certNoSAN }

/-- World whose certificate lacks a Common Name. -/
def sysNoCN : Sys :=
  { baseSys with parse := fun _ => some certNoCN }

/-- World configured except for WEBHOOK_URL, with an expiring
certificate. -/
def sysNoWebhook : Sys :=
  { baseSys with env := envDrop "WEBHOOK_URL" }

/-- World configured except for EXPIRY_THRESHOLD. -/
def sysNoThresh : Sys :=
  { baseSys with env := envDrop "EXPIRY_THRESHOLD" }

theorem pair_eq_of_fst {α β : Type} (p : α × β) {a : α} (h : p.1 = a) : p = (a, p.2) := by
  rw [← h]

theorem getCertsGo_ok_foldl (sys : Sys) :
    ∀ (urls acc certs : List String) (fx : List Effect),
      getCertsGo sys urls acc = (.ok certs, fx) →
      certs = (specSuccessPems sys urls).foldl insertIfNew acc := by
  intro urls
  induction urls with
  | nil =>
    intro acc certs fx h
    simp only [getCertsGo] at h
    injection h with h1 h2
    injection h1 with h3
    simp [specSuccessPems, h3]
  | cons url rest ih =>
    intro acc certs fx h
    cases hf : sys.fetch url with
    | ok pem =>
      simp only [getCertsGo, hf] at h
      injection h with h1 h2
      have hrec := ih (insertIfNew acc pem) certs _ (pair_eq_of_fst _ h1)
      simp only [specSuccessPems, hf, List.foldl_cons]
      exact hrec
    | raise e =>
      simp only [getCertsGo, hf] at h
      by_cases he : e = FetchErr.internalError
      · rw [if_pos he] at h
        injection h with h1 h2
        have hrec := ih acc certs _ (pair_eq_of_fst _ h1)
        simp only [specSuccessPems, hf]
        exact hrec
      · rw [if_neg he] at h
        injection h with h1 h2
        cases h1

theorem foldl_insertIfNew_nodup :
    ∀ (pems acc : List String), acc.Nodup → (pems.foldl insertIfNew acc).Nodup := by
  intro pems
  induction pems with
  | nil => intro acc h; simpa using h
  | cons pem rest ih =>
    intro acc h
    simp only [List.foldl_cons]
    apply ih
    unfold insertIfNew
    by_cases hm : pem ∈ acc
    · simpa [hm] using h
    · rw [if_neg hm, List.nodup_append]
      refine ⟨h, List.nodup_singleton pem, ?_⟩
      intro a ha hb
      simp only [List.mem_singleton] at hb
      subst hb
      exact hm ha

theorem check_expiry_noSAN (parse : String → Option X509Cert) (pem : String) (cert : X509Cert)
    (hp : parse pem = some cert) (hs : cert.sanDNS = none) :
    ∃ e, check_expiry parse pem = .error e := by
  cases hcns : cert.subjectCNs with
  | nil => exact ⟨.indexError, by simp only [check_expiry, hp, hcns]⟩
  | cons cn tl => exact ⟨.extensionNotFound, by simp only [check_expiry, hp, hcns, hs]⟩

theorem get_urls_effects (sys : Sys) : ∀ e ∈ (get_urls sys).2, pipelineOnly e = true := by
  intro e he
  unfold get_urls at he
  split at he
  · simp at he
  · split at he
    · simp at he
    · split at he
      · simp at he
      · split at he
        · simp at he
        · split at he
          · simp only [List.mem_cons, List.mem_singleton] at he
            rcases he with rfl | rfl | h
            · rfl
            · rfl
            · simp at h
          · simp only [List.mem_singleton] at he
            subst he
            rfl

theorem getCertsGo_effects (sys : Sys) :
    ∀ (urls acc : List String), ∀ e ∈ (getCertsGo sys urls acc).2, pipelineOnly e = true := by
  intro urls
  induction urls with
  | nil => intro acc e he; simp [getCertsGo] at he
  | cons url rest ih =>
    intro acc e he
    cases hf : sys.fetch url with
    | ok pem =>
      simp only [getCertsGo, hf] at he
      simp only [List.mem_cons] at he
      rcases he with rfl | rfl | hrec
      · rfl
      · rfl
      · exact ih _ e hrec
    | raise err =>
      simp only [getCertsGo, hf] at he
      by_cases hie : err = FetchErr.internalError
      · rw [if_pos hie] at he
        simp only [List.mem_cons] at he
        rcases he with rfl | rfl | rfl | hrec
        · rfl
        · rfl
        · rfl
        · exact ih _ e hrec
      · rw [if_neg hie] at he
        simp only [List.mem_cons, List.not_mem_nil, or_false] at he
        rcases he with rfl | rfl
        · rfl
        · rfl

theorem get_certificates_effects (sys : Sys) (urls : List String) :
    ∀ e ∈ (get_certificates sys urls).2, pipelineOnly e = true :=
  getCertsGo_effects sys urls []

theorem checkLoop_effects (sys : Sys) :
    ∀ (certs : List String) (acc : List Entry), ∀ e ∈ (checkLoop sys certs acc).2, pipelineOnly e = true := by
  intro certs
  induction certs with
  | nil => intro acc e he; simp [checkLoop] at he
  | cons cpem rest ih =>
    intro acc e he
    by_cases hth : truthy (sys.env "EXPIRY_THRESHOLD") = false
    · simp only [checkLoop, if_pos hth] at he
      simp at he
    · cases hce : check_expiry sys.parse cpem with
      | error err =>
        simp only [checkLoop, if_neg hth, hce] at he
        simp only [List.mem_cons, List.not_mem_nil, or_false] at he
        subst he
        rfl
      | ok data =>
        cases hde : data.expires with
        | none =>
          simp only [checkLoop, if_neg hth, hce, hde] at he
          simp only [List.mem_cons, List.not_mem_nil, or_false] at he
          subst he
          rfl
        | some exp =>
          cases hti : pyInt? ((sys.env "EXPIRY_THRESHOLD").getD "") with
          | none =>
            simp only [checkLoop, if_neg hth, hce, hde, hti] at he
            simp only [List.mem_cons, List.not_mem_nil, or_false] at he
            subst he
            rfl
          | some threshold =>
            by_cases hlt : (if Int.fdiv (exp - sys.now) 86400 = 0 then (90 : Int)
                            else Int.fdiv (exp - sys.now) 86400) < threshold
            · simp only [checkLoop, if_neg hth, hce, hde, hti, if_pos hlt] at he
              simp only [List.mem_cons] at he
              rcases he with rfl | rfl | hrec
              · rfl
              · rfl
              · exact ih _ e hrec
            · simp only [checkLoop, if_neg hth, hce, hde, hti, if_neg hlt] at he
              simp only [List.mem_cons] at he
              rcases he with rfl | hrec
              · rfl
              · exact ih _ e hrec

theorem checkLoop_ok_char (sys : Sys) (threshold : Int)
    (hth : truthy (sys.env "EXPIRY_THRESHOLD") = true)
    (hT : pyInt? ((sys.env "EXPIRY_THRESHOLD").getD "") = some threshold) :
    ∀ (certs : List String) (acc : List Entry),
      (∀ c ∈ certs, goodPem sys c = true) →
      (checkLoop sys certs acc).1 =
        .ok (acc ++ certs.filterMap (includeIfExpiring sys threshold)) := by
  have hthf : ¬ (truthy (sys.env "EXPIRY_THRESHOLD") = false) := by simp [hth]
  intro certs
  induction certs with
  | nil => intro acc hgood; simp [checkLoop]
  | cons cpem rest ih =>
    intro acc hgood
    have hc := hgood cpem (List.mem_cons_self cpem rest)
    have hrest : ∀ c ∈ rest, goodPem sys c = true := fun c hcr => hgood c (List.mem_cons_of_mem _ hcr)
    cases hp : sys.parse cpem with
    | none => simp [goodPem, hp] at hc
    | some cert =>
      simp only [goodPem, hp] at hc
      cases hcns : cert.subjectCNs with
      | nil => rw [hcns] at hc; simp at hc
      | cons cn tl =>
        cases hsd : cert.sanDNS with
        | none => rw [hsd] at hc; simp at hc
        | some doms =>
          cases hnv : cert.notValidAfterUtc with
          | none => rw [hnv] at hc; simp at hc
          | some exp =>
            have hce : check_expiry sys.parse cpem =
                .ok { cn := cn, domains := doms, expires := some exp } := by
              simp only [check_expiry, hp, hcns, hsd, hnv]
            have hent : entryFor sys cpem =
                { cert := cn
                , delta := if Int.fdiv (exp - sys.now) 86400 = 0 then (90 : Int)
                           else Int.fdiv (exp - sys.now) 86400
                , expires := exp, domains := doms } := by
              simp only [entryFor, hp, hnv, hcns, hsd, Option.getD_some, List.headD_cons]
            by_cases hlt : (if Int.fdiv (exp - sys.now) 86400 = 0 then (90 : Int)
                            else Int.fdiv (exp - sys.now) 86400) < threshold
            · have hinc : includeIfExpiring sys threshold cpem = some (entryFor sys cpem) := by
                unfold includeIfExpiring
                rw [if_pos (by rw [hent]; exact hlt)]
              simp only [checkLoop, if_neg hthf, hce, hT, if_pos hlt]
              rw [ih _ hrest, List.filterMap_cons_some hinc, hent]
              simp [List.append_assoc]
            · have hinc : includeIfExpiring sys threshold cpem = none := by
                unfold includeIfExpiring
                rw [if_neg (by rw [hent]; exact hlt)]
              simp only [checkLoop, if_neg hthf, hce, hT, if_neg hlt]
              rw [ih _ hrest, List.filterMap_cons_none hinc]

theorem checkLoop_entries_delta (sys : Sys) :
    ∀ (certs : List String) (acc es : List Entry) (fx : List Effect),
      checkLoop sys certs acc = (.ok es, fx) →
      (∀ e ∈ acc, e.delta = (if Int.fdiv (e.expires - sys.now) 86400 = 0 then (90 : Int)
                             else Int.fdiv (e.expires - sys.now) 86400)) →
      ∀ e ∈ es, e.delta = (if Int.fdiv (e.expires - sys.now) 86400 = 0 then (90 : Int)
                           else Int.fdiv (e.expires - sys.now) 86400) := by
  intro certs
  induction certs with
  | nil =>
    intro acc es fx h hacc
    simp only [checkLoop] at h
    injection h with h1 h2
    injection h1 with h3
    subst h3
    exact hacc
  | cons cpem rest ih =>
    intro acc es fx h hacc
    by_cases hth : truthy (sys.env "EXPIRY_THRESHOLD") = false
    · simp only [checkLoop, if_pos hth] at h
      injection h with h1 h2
      cases h1
    · cases hce : check_expiry sys.parse cpem with
      | error err =>
        simp only [checkLoop, if_neg hth, hce] at h
        injection h with h1 h2
        cases h1
      | ok data =>
        cases hde : data.expires with
        | none =>
          simp only [checkLoop, if_neg hth, hce, hde] at h
          injection h with h1 h2
          cases h1
        | some exp =>
          cases hti : pyInt? ((sys.env "EXPIRY_THRESHOLD").getD "") with
          | none =>
            simp only [checkLoop, if_neg hth, hce, hde, hti] at h
            injection h with h1 h2
            cases h1
          | some threshold =>
            by_cases hlt : (if Int.fdiv (exp - sys.now) 86400 = 0 then (90 : Int)
                            else Int.fdiv (exp - sys.now) 86400) < threshold
            · simp only [checkLoop, if_neg hth, hce, hde, hti, if_pos hlt] at h
              injection h with h1 h2
              refine ih _ es _ (pair_eq_of_fst _ h1) ?_
              intro e he
              rcases List.mem_append.mp he with ha | hb
              · exact hacc e ha
              · simp only [List.mem_cons, List.not_mem_nil, or_false] at hb
                subst hb
                rfl
            · simp only [checkLoop, if_neg hth, hce, hde, hti, if_neg hlt] at h
              injection h with h1 h2
              exact ih _ es _ (pair_eq_of_fst _ h1) hacc

theorem checkLoop_noSAN_not_ok (sys : Sys) :
    ∀ (certs : List String) (acc : List Entry) (cpem : String) (cert : X509Cert),
      cpem ∈ certs → sys.parse cpem = some cert → cert.sanDNS = none →
      exceptIsOk (checkLoop sys certs acc).1 = false := by
  intro certs
  induction certs with
  | nil =>
    intro acc cpem cert hmem
    simp at hmem
  | cons c rest ih =>
    intro acc cpem cert hmem hp hs
    by_cases hth : truthy (sys.env "EXPIRY_THRESHOLD") = false
    · simp [checkLoop, if_pos hth, exceptIsOk]
    · rcases List.mem_cons.mp hmem with heq | hmem2
      · subst heq
        obtain ⟨err, hce⟩ := check_expiry_noSAN sys.parse cpem cert hp hs
        simp [checkLoop, if_neg hth, hce, exceptIsOk]
      · cases hce : check_expiry sys.parse c with
        | error err =>
          simp [checkLoop, if_neg hth, hce, exceptIsOk]
        | ok data =>
          cases hde : data.expires with
          | none =>
            simp [checkLoop, if_neg hth, hce, hde, exceptIsOk]
          | some exp =>
            cases hti : pyInt? ((sys.env "EXPIRY_THRESHOLD").getD "") with
            | none =>
              simp [checkLoop, if_neg hth, hce, hde, hti, exceptIsOk]
            | some threshold =>
              by_cases hlt : (if Int.fdiv (exp - sys.now) 86400 = 0 then (90 : Int)
                              else Int.fdiv (exp - sys.now) 86400) < threshold
              · simp only [checkLoop, if_neg hth, hce, hde, hti, if_pos hlt]
                exact ih _ cpem cert hmem2 hp hs
              · simp only [checkLoop, if_neg hth, hce, hde, hti, if_neg hlt]
                exact ih _ cpem cert hmem2 hp hs

/-- C1: per-hostname fetch failures are claimed to be caught, logged and
skipped.  The code catches only cryptography.exceptions.InternalError,
which ssl.get_server_certificate never raises, so a real failure such as
ConnectionRefusedError propagates: fetching a, b, c where b refuses the
connection aborts the whole fetch with the error instead of skipping b
and returning the certificates of a and c. -/
theorem fetch_failure_aborts_run :
    get_certificates sysRefused ["a", "b", "c"] =
      (.error (.fetchError .connectionRefused),
       [Effect.logInfo "Getting certificate for a", Effect.tlsFetch "a" 443,
        Effect.logInfo "Getting certificate for b", Effect.tlsFetch "b" 443]) := rfl

/-- C2 counterexample: a certificate whose Subject lacks a Common Name
attribute makes check_expiry raise IndexError (the [0] index into the
empty attribute list), so evaluation does fail, contrary to the claim
that it returns an evaluated result. -/
theorem missing_cn_fails_cex :
    check_expiry sysNoCN.parse "PEM1" = .error .indexError := rfl

/-- C2 amended: for every certificate whose Subject lacks a Common Name
attribute, check_expiry raises an uncaught IndexError, aborting the run;
no evaluated result is produced. -/
theorem missing_cn_indexerror (parse : String → Option X509Cert) (pem : String)
    (cert : X509Cert) (hp : parse pem = some cert) (hcn : cert.subjectCNs = []) :
    check_expiry parse pem = .error .indexError := by
  simp only [check_expiry, hp, hcn]

/-- C2 witness: the amended theorem applied to a concrete certificate
without a Common Name. -/
theorem missing_cn_indexerror_witness :
    check_expiry (fun _ => some certNoCN) "PEM" = .error .indexError :=
  missing_cn_indexerror (fun _ => some certNoCN) "PEM" certNoCN rfl rfl

/-- C3: every entry of the expiring list carries as its day count the
sentinel 90 when the floor day delta between its not-after timestamp and
now is zero, and the true signed day delta otherwise. -/
theorem entry_delta_sentinel (sys : Sys) (certs : List String) (es : List Entry)
    (fx : List Effect) (h : checkLoop sys certs [] = (.ok es, fx)) :
    ∀ e ∈ es, e.delta = (if Int.fdiv (e.expires - sys.now) 86400 = 0 then (90 : Int)
                         else Int.fdiv (e.expires - sys.now) 86400) :=
  checkLoop_entries_delta sys certs [] es fx h (by simp)

/-- C3 witness: a certificate one hour from expiry has day delta zero and
its entry carries the 90-day sentinel. -/
theorem entry_delta_sentinel_witness :
    ({ cert := "example.com", delta := 90, expires := 3600, domains := ["example.com"] } : Entry).delta =
      (if Int.fdiv (({ cert := "example.com", delta := 90, expires := 3600, domains := ["example.com"] } : Entry).expires - sysSentinel.now) 86400 = 0 then (90 : Int)
       else Int.fdiv (({ cert := "example.com", delta := 90, expires := 3600, domains := ["example.com"] } : Entry).expires - sysSentinel.now) 86400) :=
  entry_delta_sentinel sysSentinel ["PEM1"]
    [{ cert := "example.com", delta := 90, expires := 3600, domains := ["example.com"] }]
    [Effect.evalCert, Effect.logInfo "Certificate example.com expires 90 in days"] rfl
    { cert := "example.com", delta := 90, expires := 3600, domains := ["example.com"] }
    (by decide)

/-- C4: for every configured threshold and every evaluated certificate,
its entry is in the expiring list iff its day count is strictly below the
threshold; a day count equal to the threshold is excluded and one equal
to threshold minus one is included. -/
theorem expiring_iff_below_threshold (sys : Sys) (threshold : Int) (certs : List String)
    (es : List Entry) (fx : List Effect)
    (hth : truthy (sys.env "EXPIRY_THRESHOLD") = true)
    (hT : pyInt? ((sys.env "EXPIRY_THRESHOLD").getD "") = some threshold)
    (hgood : ∀ c ∈ certs, goodPem sys c = true)
    (h : checkLoop sys certs [] = (.ok es, fx)) :
    ∀ c ∈ certs,
      ((entryFor sys c ∈ es) ↔ (entryFor sys c).delta < threshold) ∧
      ((entryFor sys c).delta = threshold → entryFor sys c ∉ es) ∧
      ((entryFor sys c).delta = threshold - 1 → entryFor sys c ∈ es) := by
  have hchar := checkLoop_ok_char sys threshold hth hT certs [] hgood
  rw [h] at hchar
  simp only [List.nil_append] at hchar
  have hes : es = certs.filterMap (includeIfExpiring sys threshold) := Except.ok.inj hchar
  subst hes
  intro c hc
  have hiff : (entryFor sys c ∈ certs.filterMap (includeIfExpiring sys threshold)) ↔
      (entryFor sys c).delta < threshold := by
    constructor
    · intro hmem
      rcases List.mem_filterMap.mp hmem with ⟨c2, hc2, hinc⟩
      unfold includeIfExpiring at hinc
      by_cases hlt : (entryFor sys c2).delta < threshold
      · rw [if_pos hlt] at hinc
        injection hinc with h4
        rw [← h4]
        exact hlt
      · rw [if_neg hlt] at hinc
        cases hinc
    · intro hlt
      exact List.mem_filterMap.mpr ⟨c, hc, by unfold includeIfExpiring; rw [if_pos hlt]⟩
  refine ⟨hiff, ?_, ?_⟩
  · intro heq hmem
    have hlt := hiff.mp hmem
    rw [heq] at hlt
    exact lt_irrefl _ hlt
  · intro heq
    refine hiff.mpr ?_
    rw [heq]
    exact sub_one_lt threshold

/-- C4 witness: with threshold 30 and one certificate ten days from
expiry, the entry of that certificate is in the expiring list exactly
because its day count is below the threshold. -/
theorem expiring_iff_below_threshold_witness :
    (entryFor baseSys "PEM1" ∈ [({ cert := "example.com", delta := 10, expires := 864000, domains := ["example.com"] } : Entry)]) ↔
      (entryFor baseSys "PEM1").delta < 30 :=
  (expiring_iff_below_threshold baseSys 30 ["PEM1"]
    [{ cert := "example.com", delta := 10, expires := 864000, domains := ["example.com"] }]
    [Effect.evalCert, Effect.logInfo "Certificate example.com expires 10 in days"]
    rfl rfl (by decide) rfl "PEM1" (by decide)).1

/-- C5: a certificate lacking the Subject Alternative Name extension makes
check_expiry raise ExtensionNotFound, and the evaluation loop over any
certificate list containing such a certificate never returns normally, so
no entry with an empty domain list is ever produced for it. -/
theorem missing_san_aborts :
    (∀ (pa : String → Option X509Cert) (pem : String) (cert : X509Cert),
       pa pem = some cert → cert.sanDNS = none → cert.subjectCNs ≠ [] →
       check_expiry pa pem = .error .extensionNotFound)
    ∧ (∀ (sys : Sys) (certs : List String) (acc : List Entry) (cpem : String) (cert : X509Cert),
       cpem ∈ certs → sys.parse cpem = some cert → cert.sanDNS = none →
       exceptIsOk (checkLoop sys certs acc).1 = false) := by
  constructor
  · intro pa pem cert hp hs hcn
    cases hcns : cert.subjectCNs with
    | nil => exact absurd hcns hcn
    | cons cn tl => simp only [check_expiry, hp, hcns, hs]
  · intro sys certs acc cpem cert hmem hp hs
    exact checkLoop_noSAN_not_ok sys certs acc cpem cert hmem hp hs

/-- C5 witness: a concrete certificate without the SAN extension raises
ExtensionNotFound and the loop over it does not return normally. -/
theorem missing_san_aborts_witness :
    check_expiry sysNoSAN.parse "PEM1" = .error .extensionNotFound ∧
    exceptIsOk (checkLoop sysNoSAN ["PEM1"] []).1 = false :=
  ⟨missing_san_aborts.1 sysNoSAN.parse "PEM1" certNoSAN rfl rfl (by decide),
   missing_san_aborts.2 sysNoSAN ["PEM1"] [] "PEM1" certNoSAN (by decide) rfl rfl⟩

/-- C6: with the webhook settings present, a 201 response makes Email.send
succeed with no error logged; any other status logs the status and body
and raises; a network failure logs and re-raises; in every case exactly
one POST with a 30 second timeout is attempted. -/
theorem webhook_delivery_semantics (sys : Sys) (email : Email)
    (hu : truthy (sys.env "WEBHOOK_URL") = true)
    (h1 : truthy (sys.env "WEBHOOK_USER") = true)
    (h2 : truthy (sys.env "WEBHOOK_PASS") = true) :
    (∀ text, sys.http = .resp 201 text →
      Email.send sys email = (.ok (), [Effect.httpPost 30]))
    ∧ (∀ status text, sys.http = .resp status text → status ≠ 201 →
        Email.send sys email = (.error .requestException,
          [Effect.httpPost 30, Effect.logError ("Error " ++ toString status ++ ": " ++ text)]))
    ∧ (∀ msg, sys.http = .netErr msg →
        Email.send sys email = (.error .requestException,
          [Effect.httpPost 30, Effect.logError ("Error: " ++ msg)]))
    ∧ (Email.send sys email).2.filter isHttpPost = [Effect.httpPost 30] := by
  have hu2 : ¬ (truthy (sys.env "WEBHOOK_URL") = false) := by simp [hu]
  have hup : ¬ ((truthy (sys.env "WEBHOOK_USER") = false) ∨
                (truthy (sys.env "WEBHOOK_PASS") = false)) := by
    simp [h1, h2]
  refine ⟨?_, ?_, ?_, ?_⟩
  · intro text hh
    simp only [Email.send, if_neg hu2, if_neg hup, hh]
    rw [if_neg (by simp)]
  · intro status text hh hne
    simp only [Email.send, if_neg hu2, if_neg hup, hh]
    rw [if_pos hne]
  · intro msg hh
    simp only [Email.send, if_neg hu2, if_neg hup, hh]
  · cases hh : sys.http with
    | netErr msg =>
      simp only [Email.send, if_neg hu2, if_neg hup, hh]
      simp [List.filter_cons, isHttpPost]
    | resp status text =>
      by_cases hne : status ≠ 201
      · simp only [Email.send, if_neg hu2, if_neg hup, hh, if_pos hne]
        simp [List.filter_cons, isHttpPost]
      · simp only [Email.send, if_neg hu2, if_neg hup, hh, if_neg hne]
        simp [List.filter_cons, isHttpPost]

/-- C6 witness: a 201 response from the fully configured webhook makes
Email.send succeed with a single 30 second POST. -/
theorem webhook_delivery_semantics_witness :
    Email.send baseSys { subject := "s", body := "b", toAddr := "t", sender := "f" } =
      (.ok (), [Effect.httpPost 30]) :=
  (webhook_delivery_semantics baseSys
    { subject := "s", body := "b", toAddr := "t", sender := "f" } rfl rfl rfl).1 "created" rfl

/-- C7: whenever the fetch stage returns, its certificate list has no two
byte-identical elements and equals the first-seen-order dedup of the PEM
texts of the successful fetches. -/
theorem fetch_dedup_first_seen (sys : Sys) (urls certs : List String) (fx : List Effect)
    (h : get_certificates sys urls = (.ok certs, fx)) :
    certs.Nodup ∧ certs = specFirstSeenDedup (specSuccessPems sys urls) := by
  have h2 := getCertsGo_ok_foldl sys urls [] certs fx h
  constructor
  · rw [h2]
    exact foldl_insertIfNew_nodup _ [] List.nodup_nil
  · exact h2

/-- C7 witness: two hostnames yielding byte-identical PEM text contribute
exactly one certificate. -/
theorem fetch_dedup_first_seen_witness :
    (["PEMX"] : List String).Nodup ∧
    (["PEMX"] : List String) = specFirstSeenDedup (specSuccessPems sysSamePem ["a", "b"]) :=
  fetch_dedup_first_seen sysSamePem ["a", "b"] ["PEMX"]
    [Effect.logInfo "Getting certificate for a", Effect.tlsFetch "a" 443,
     Effect.logInfo "Getting certificate for b", Effect.tlsFetch "b" 443] rfl

/-- C8: when the evaluation loop yields an empty expiring list, the run
returns normally, no email is constructed and no webhook POST is
attempted. -/
theorem no_expiring_no_notification (sys : Sys) (urls certs : List String)
    (fx1 fx2 fx3 : List Effect)
    (hth : truthy (sys.env "EXPIRY_THRESHOLD") = true)
    (h1 : get_urls sys = (.ok urls, fx1))
    (h2 : get_certificates sys urls = (.ok certs, fx2))
    (h3 : checkLoop sys certs [] = (.ok [], fx3)) :
    (ssl_expiry_checker sys).1 = .ok () ∧
    Effect.emailConstructed ∉ (ssl_expiry_checker sys).2 ∧
    ∀ t, Effect.httpPost t ∉ (ssl_expiry_checker sys).2 := by
  have hthf : ¬ (truthy (sys.env "EXPIRY_THRESHOLD") = false) := by simp [hth]
  have hrun : ssl_expiry_checker sys =
      (.ok (), fx1 ++ fx2 ++ fx3 ++ [Effect.logInfo "No expiring certificates"]) := by
    simp only [ssl_expiry_checker, if_neg hthf, h1, h2, h3]
    simp
  have hfx1 : ∀ e ∈ fx1, pipelineOnly e = true := fun e he =>
    get_urls_effects sys e (by rw [h1]; exact he)
  have hfx2 : ∀ e ∈ fx2, pipelineOnly e = true := fun e he =>
    get_certificates_effects sys urls e (by rw [h2]; exact he)
  have hfx3 : ∀ e ∈ fx3, pipelineOnly e = true := fun e he =>
    checkLoop_effects sys certs [] e (by rw [h3]; exact he)
  have hall : ∀ e ∈ (ssl_expiry_checker sys).2, pipelineOnly e = true := by
    rw [hrun]
    intro e he
    rcases List.mem_append.mp he with he1 | he4
    · rcases List.mem_append.mp he1 with he2 | he3
      · rcases List.mem_append.mp he2 with ha | hb
        · exact hfx1 e ha
        · exact hfx2 e hb
      · exact hfx3 e he3
    · simp only [List.mem_cons, List.not_mem_nil, or_false] at he4
      subst he4
      rfl
  refine ⟨by rw [hrun], fun hmem => ?_, fun t hmem => ?_⟩
  · have hpo := hall _ hmem
    simp [pipelineOnly] at hpo
  · have hpo := hall _ hmem
    simp [pipelineOnly] at hpo

/-- C8 witness: a run whose only certificate is a hundred days from expiry
completes normally. -/
theorem no_expiring_no_notification_witness :
    (ssl_expiry_checker sysNoExpiring).1 = .ok () :=
  (no_expiring_no_notification sysNoExpiring ["example.com"] ["PEM1"]
    [Effect.dbQuery]
    [Effect.logInfo "Getting certificate for example.com", Effect.tlsFetch "example.com" 443]
    [Effect.evalCert] rfl rfl rfl rfl).1

/-- C9 counterexample: with WEBHOOK_URL absent and everything else
configured, the run performs the database query, the TLS fetch and the
certificate evaluation before failing on the missing setting, so the
missing webhook configuration does not abort the run before pipeline
work. -/
theorem webhook_checked_late_cex :
    (ssl_expiry_checker sysNoWebhook).1 = .error (.valueError "WEBHOOK_URL not set") ∧
    Effect.dbQuery ∈ (ssl_expiry_checker sysNoWebhook).2 ∧
    Effect.tlsFetch "example.com" 443 ∈ (ssl_expiry_checker sysNoWebhook).2 ∧
    Effect.evalCert ∈ (ssl_expiry_checker sysNoWebhook).2 :=
  ⟨rfl, by decide, by decide, by decide⟩

/-- C9 amended: a missing EXPIRY_THRESHOLD aborts the run with a
configuration error before any pipeline work, while missing webhook
settings are detected only inside Email.send, at delivery time. -/
theorem config_check_timing :
    (∀ sys : Sys, truthy (sys.env "EXPIRY_THRESHOLD") = false →
       ssl_expiry_checker sys = (.error (.valueError "EXPIRY_THRESHOLD not set"), []))
    ∧ (∀ (sys : Sys) (email : Email), truthy (sys.env "WEBHOOK_URL") = false →
       Email.send sys email = (.error (.valueError "WEBHOOK_URL not set"), [])) := by
  constructor
  · intro sys h
    simp only [ssl_expiry_checker, if_pos h]
  · intro sys email h
    simp only [Email.send, if_pos h]

/-- C9 witness: the amended theorem applied to concrete worlds missing
EXPIRY_THRESHOLD and WEBHOOK_URL respectively. -/
theorem config_check_timing_witness :
    ssl_expiry_checker sysNoThresh = (.error (.valueError "EXPIRY_THRESHOLD not set"), []) ∧
    Email.send sysNoWebhook { subject := "s", body := "b", toAddr := "t", sender := "f" } =
      (.error (.valueError "WEBHOOK_URL not set"), []) :=
  ⟨config_check_timing.1 sysNoThresh rfl,
   config_check_timing.2 sysNoWebhook
     { subject := "s", body := "b", toAddr := "t", sender := "f" } rfl⟩

/-- C10: a certificate whose floor day delta is strictly negative keeps
that negative value (the 90-day sentinel applies only to a delta of
exactly zero), and its entry is in the expiring list whenever the
negative value is below the threshold. -/
theorem negative_days_retained (sys : Sys) (threshold : Int) (certs : List String)
    (es : List Entry) (fx : List Effect)
    (hth : truthy (sys.env "EXPIRY_THRESHOLD") = true)
    (hT : pyInt? ((sys.env "EXPIRY_THRESHOLD").getD "") = some threshold)
    (hgood : ∀ c ∈ certs, goodPem sys c = true)
    (h : checkLoop sys certs [] = (.ok es, fx))
    (cpem : String) (hc : cpem ∈ certs) (cert : X509Cert)
    (hp : sys.parse cpem = some cert) (exp : Int) (hexp : cert.notValidAfterUtc = some exp)
    (hneg : Int.fdiv (exp - sys.now) 86400 < 0) :
    (entryFor sys cpem).delta = Int.fdiv (exp - sys.now) 86400 ∧
    (Int.fdiv (exp - sys.now) 86400 < threshold → entryFor sys cpem ∈ es) := by
  have hne : Int.fdiv (exp - sys.now) 86400 ≠ 0 := ne_of_lt hneg
  have hdelta : (entryFor sys cpem).delta = Int.fdiv (exp - sys.now) 86400 := by
    simp only [entryFor, hp, hexp, Option.getD_some]
    rw [if_neg hne]
  refine ⟨hdelta, fun hlt => ?_⟩
  have hchar := checkLoop_ok_char sys threshold hth hT certs [] hgood
  rw [h] at hchar
  simp only [List.nil_append] at hchar
  have hes : es = certs.filterMap (includeIfExpiring sys threshold) := Except.ok.inj hchar
  subst hes
  refine List.mem_filterMap.mpr ⟨cpem, hc, ?_⟩
  unfold includeIfExpiring
  rw [if_pos (by rw [hdelta]; exact hlt)]

/-- C10 witness: a certificate that expired ten days ago keeps day count
minus ten and appears in the expiring list for threshold 30. -/
theorem negative_days_retained_witness :
    (entryFor sysExpired "PEM1").delta = Int.fdiv (-864000 - sysExpired.now) 86400 ∧
    entryFor sysExpired "PEM1" ∈ [({ cert := "example.com", delta := -10, expires := -864000, domains := ["example.com"] } : Entry)] := by
  have h := negative_days_retained sysExpired 30 ["PEM1"]
    [{ cert := "example.com", delta := -10, expires := -864000, domains := ["example.com"] }]
    [Effect.evalCert, Effect.logInfo "Certificate example.com expires -10 in days"]
    rfl rfl (by decide) rfl "PEM1" (by decide) certExpired rfl (-864000) rfl (by decide)
  exact And.intro h.1 (h.2 (by decide))

end SSLExpiry
